import Mathlib

/-!
Verification of `build/generate_code.py`: a sequential LLM code-generation
pipeline (HTML to Script to Style to Tests, then auxiliary configuration
files).  Python strings are modelled as `List Char` wrapped in `String`;
Python `str.strip`, `str.find`, `str.rfind` and slicing are reimplemented
below with their exact semantics on the fragments the program uses.
-/

namespace GenCode

/-- Characters Python `str.strip()` removes: exactly the characters for
which CPython's `str.isspace()` is true — the ASCII whitespace characters,
the information separators U+001C-U+001F, NEL U+0085, NBSP U+00A0, plus the
Unicode Zs space separators (U+1680, U+2000-U+200A, U+202F, U+205F, U+3000)
and the Zl/Zp separators U+2028 and U+2029. -/
def pyIsSpace (c : Char) : Bool :=
  c = ' ' || c = '\t' || c = '\n' || c = '\r' || c = '\x0b' || c = '\x0c'
    || c = '\x1c' || c = '\x1d' || c = '\x1e' || c = '\x1f'
    || c = '\x85' || c = '\xa0' || c = '\u1680'
    || ('\u2000' ≤ c && c ≤ '\u200a')
    || c = '\u2028' || c = '\u2029' || c = '\u202f' || c = '\u205f'
    || c = '\u3000'

/-- Remove leading whitespace, as the left half of Python `str.strip()`. -/
def lstrip : List Char → List Char
  | [] => []
  | c :: cs => if pyIsSpace c then lstrip cs else c :: cs

/-- Remove trailing whitespace, as the right half of Python `str.strip()`. -/
def rstripL (l : List Char) : List Char :=
  (lstrip l.reverse).reverse

/-- Python `str.strip()` on character lists. -/
def stripL (l : List Char) : List Char :=
  rstripL (lstrip l)

/-- `startsWith l p` is true when `p` is an initial segment of `l`. -/
def startsWith : List Char → List Char → Bool
  | _, [] => true
  | [], _ :: _ => false
  | c :: cs, d :: ds => c = d && startsWith cs ds

/-- Python `s.find(sub)`: index of the first occurrence, `none` when absent. -/
def findSub : List Char → List Char → Option Nat
  | [], sub => if startsWith [] sub then some 0 else none
  | c :: cs, sub =>
      if startsWith (c :: cs) sub then some 0
      else (findSub cs sub).map (· + 1)

/-- Python `s.rfind(sub)`: index of the last occurrence, `none` when absent. -/
def rfindSub (l sub : List Char) : Option Nat :=
  (findSub l.reverse sub.reverse).map (fun i => l.length - sub.length - i)

/-- Python slicing `s[a:b]` for `0 ≤ a, b` (empty when `a ≥ b`). -/
def sliceL (l : List Char) (a b : Nat) : List Char :=
  (l.drop a).take (b - a)

/-- Python `sub in s`. -/
def containsSub (s sub : String) : Bool :=
  (findSub s.data sub.data).isSome

/-- Python `str.strip()` on strings. -/
def pyStrip (s : String) : String :=
  ⟨stripL s.data⟩

/-- The fenced-code-block delimiter. -/
def fenceS : String := "\x60\x60\x60"

/-- The fenced-code-block delimiter as a character list. -/
def fence : List Char := fenceS.data

/-- `extract_code` from `generate_code.py`, on character lists.  If the
response contains a fence delimiter, take the text between the first and the
last delimiter, skipping a language-tag line when the ten characters after
the first delimiter strip to something nonempty and a newline occurs within
twenty characters; otherwise return the stripped response. -/
def extractL (l : List Char) : List Char :=
  match findSub l fence with
  | none => stripL l
  | some i =>
      let start0 := i + 3
      let w10 := (l.drop start0).take 10
      let w20 := (l.drop start0).take 20
      let wstart :=
        if (stripL w10).isEmpty || (findSub w20 ['\n']).isNone then start0
        else
          match findSub (l.drop start0) ['\n'] with
          | some j => start0 + j + 1
          | none => 0
      let endIdx := (rfindSub l fence).getD 0
      stripL (sliceL l wstart endIdx)

/-- `extract_code` from `generate_code.py` (lines 160-171). -/
def extract_code (llm_response : String) : String :=
  ⟨extractL llm_response.data⟩

/-! ## Process environment and CLI arguments -/

/-- The process environment variables the program reads (`os.environ.get`):
`LLM_MODEL`, `LLM_API_ENDPOINT`, `LLM_API_KEY`; `none` means unset. -/
structure Env where
  llm_model : Option String
  llm_endpoint : Option String
  llm_api_key : Option String
deriving DecidableEq

/-- The parsed CLI arguments `--model`, `--api-key`, `--endpoint`
(`argparse` defaults them to `None`). -/
structure Args where
  model : Option String
  api_key : Option String
  endpoint : Option String
deriving DecidableEq

/-- `DEFAULT_MODEL = os.environ.get("LLM_MODEL", "gpt-4-turbo")`. -/
def DEFAULT_MODEL (env : Env) : String :=
  env.llm_model.getD "gpt-4-turbo"

/-- `DEFAULT_API_ENDPOINT = os.environ.get("LLM_API_ENDPOINT", ...)`. -/
def DEFAULT_API_ENDPOINT (env : Env) : String :=
  env.llm_endpoint.getD "https://api.openai.com/v1/chat/completions"

/-- Python truthiness on an optional string: `None` and `""` are falsy. -/
def truthyOpt : Option String → Option String
  | some s => if s = "" then none else some s
  | none => none

/-- `x or d` for an optional string `x` (Python falsy-or). -/
def orTruthy (o : Option String) (d : String) : String :=
  match truthyOpt o with
  | some s => s
  | none => d

/-! ## The completion request boundary -/

/-- One HTTP completion request as assembled by `call_llm_api`: the two
messages, the model, the endpoint posted to, and the bearer key.
(`temperature` and `max_tokens` are the constants 0.2 and 4000 and carry no
information.) -/
structure Request where
  system_message : String
  user_message : String
  model : String
  endpoint : String
  api_key : String
deriving DecidableEq

/-- The external LLM service: a deterministic map from a request to either
the completion text or an error message (transport/auth/rate-limit). -/
def Oracle : Type := Request → Except String String

/-- How a `call_llm_api` invocation can fail: the `ValueError` raised before
any request is made when no API key is available, or an API error raised
after the request `r` was posted. -/
inductive CallFailure where
  | missingKey : CallFailure
  | apiError : Request → String → CallFailure
deriving DecidableEq

/-- The exception text observed by `main`'s handler. -/
def callErrMsg : CallFailure → String
  | .missingKey =>
      "API key not provided. Set the LLM_API_KEY in your .env file or pass it as an argument."
  | .apiError _ e => e

/-- The requests that were actually posted during a failed call. -/
def callErrRequests : CallFailure → List Request
  | .missingKey => []
  | .apiError r _ => [r]

/-- The key resolution of `call_llm_api` lines 39-42: a falsy `api_key`
argument falls back to `os.environ.get("LLM_API_KEY")`, and a falsy result
raises. -/
def resolveKey (api_key envkey : Option String) : Option String :=
  match truthyOpt api_key with
  | some k => some k
  | none => truthyOpt envkey

/-- `call_llm_api` (lines 33-73): resolve model/endpoint/key with Python
falsy-or against the environment defaults, post once, no retry. -/
def call_llm_api (env : Env) (oracle : Oracle) (prompt system_message : String)
    (model api_key endpoint : Option String) :
    Except CallFailure (Request × String) :=
  let m := orTruthy model (DEFAULT_MODEL env)
  let ep := orTruthy endpoint (DEFAULT_API_ENDPOINT env)
  match resolveKey api_key env.llm_api_key with
  | none => .error .missingKey
  | some k =>
      let req : Request := ⟨system_message, prompt, m, ep, k⟩
      match oracle req with
      | .ok text => .ok (req, text)
      | .error e => .error (.apiError req e)

/-! ## Stage prompt construction (the exact f-string templates) -/

/-- Default `system_message` parameter of `call_llm_api`. -/
def defaultSystemMessage : String :=
  "You are a code generator for a calculator application."

/-- `system_prompt` in `generate_html`. -/
def htmlSystemPrompt : String :=
  "Generate only the HTML code for a calculator. Respond with ONLY the complete HTML file, no explanations or markdown."

/-- `system_prompt` in `generate_javascript`. -/
def jsSystemPrompt : String :=
  "Generate only the JavaScript code for a calculator. Respond with ONLY the complete JavaScript file, no explanations or markdown."

/-- `system_prompt` in `generate_css`. -/
def cssSystemPrompt : String :=
  "Generate only the CSS code for a calculator. Respond with ONLY the complete CSS file, no explanations or markdown."

/-- `system_prompt` in `generate_tests`. -/
def testsSystemPrompt : String :=
  "Generate only JavaScript test code for a calculator. Respond with ONLY the complete test file, no explanations or markdown."

/-- `generate_javascript` context template, part before `{html_context}`. -/
def jsCtxA : String :=
  "\nI\x27ll provide you with the HTML structure of a calculator application followed by requirements\nfor implementing its JavaScript business logic. Make sure your JavaScript code properly \ninteracts with the HTML elements by using the correct IDs and classes.\n\nHere\x27s the HTML structure:\n\x60\x60\x60html\n"

/-- `generate_javascript` context template, part after `{html_context}`. -/
def jsCtxB : String :=
  "\n\x60\x60\x60\n\nNow, here are the requirements for the JavaScript business logic:\n"

/-- `generate_css` context template, part before `{html_context}`. -/
def cssCtxA : String :=
  "\nI\x27ll provide you with the HTML and JavaScript code for a calculator application followed by\nrequirements for implementing its CSS styling. Make sure your CSS properly styles\nthe HTML elements by using the correct IDs, classes, and elements.\n\nHere\x27s the HTML structure:\n\x60\x60\x60html\n"

/-- `generate_css` context template, between `{html_context}` and `{js_context}`. -/
def cssCtxB : String :=
  "\n\x60\x60\x60\n\nHere\x27s the JavaScript code:\n\x60\x60\x60javascript\n"

/-- `generate_css` context template, part after `{js_context}`. -/
def cssCtxC : String :=
  "\n\x60\x60\x60\n\nNow, here are the requirements for the CSS styling:\n"

/-- `generate_tests` context template, part before `{html_context}`. -/
def testsCtxA : String :=
  "\nI\x27ll provide you with the complete implementation of a calculator application (HTML, JavaScript, and CSS)\nfollowed by requirements for implementing tests. Make sure your tests properly validate\nthe calculator\x27s functionality by checking all specified requirements.\n\nHere\x27s the HTML structure:\n\x60\x60\x60html\n"

/-- `generate_tests` context template, between `{html_context}` and `{js_context}`. -/
def testsCtxB : String :=
  "\n\x60\x60\x60\n\nHere\x27s the JavaScript code:\n\x60\x60\x60javascript\n"

/-- `generate_tests` context template, between `{js_context}` and `{css_context}`. -/
def testsCtxC : String :=
  "\n\x60\x60\x60\n\nHere\x27s the CSS code:\n\x60\x60\x60css\n"

/-- `generate_tests` context template, part after `{css_context}`. -/
def testsCtxD : String :=
  "\n\x60\x60\x60\n\nNow, here are the requirements for the tests:\n"

/-- `system_message` used for every auxiliary configuration file. -/
def configSystemMessage : String :=
  "You are a helpful assistant that generates configuration files."

/-- `generate_html` (lines 75-80): the stage instruction is prepended to the
user prompt and `call_llm_api` is invoked with its default system message. -/
def generate_html (env : Env) (oracle : Oracle) (prompt : String) :
    Except CallFailure (Request × String) :=
  call_llm_api env oracle (htmlSystemPrompt ++ "\n\n" ++ prompt)
    defaultSystemMessage none none none

/-- `generate_javascript` (lines 82-101). -/
def generate_javascript (env : Env) (oracle : Oracle)
    (prompt html_context : String) : Except CallFailure (Request × String) :=
  call_llm_api env oracle
    ((jsCtxA ++ html_context ++ jsCtxB) ++ "\n" ++ prompt)
    jsSystemPrompt none none none

/-- `generate_css` (lines 103-127). -/
def generate_css (env : Env) (oracle : Oracle)
    (prompt html_context js_context : String) :
    Except CallFailure (Request × String) :=
  call_llm_api env oracle
    ((cssCtxA ++ html_context ++ cssCtxB ++ js_context ++ cssCtxC) ++ "\n" ++ prompt)
    cssSystemPrompt none none none

/-- `generate_tests` (lines 129-158). -/
def generate_tests (env : Env) (oracle : Oracle)
    (prompt html_context js_context css_context : String) :
    Except CallFailure (Request × String) :=
  call_llm_api env oracle
    ((testsCtxA ++ html_context ++ testsCtxB ++ js_context ++ testsCtxC
        ++ css_context ++ testsCtxD) ++ "\n" ++ prompt)
    testsSystemPrompt none none none

/-! ## The requests each stage posts (for a resolved key `k`) -/

/-- The request `generate_html` posts: default system message, the stage
instruction prepended to the user prompt. -/
def htmlRequest (env : Env) (k p : String) : Request :=
  ⟨defaultSystemMessage, htmlSystemPrompt ++ "\n\n" ++ p,
    DEFAULT_MODEL env, DEFAULT_API_ENDPOINT env, k⟩

/-- The request `generate_javascript` posts: its context embeds exactly the
HTML artifact. -/
def jsRequest (env : Env) (k p html_context : String) : Request :=
  ⟨jsSystemPrompt, (jsCtxA ++ html_context ++ jsCtxB) ++ "\n" ++ p,
    DEFAULT_MODEL env, DEFAULT_API_ENDPOINT env, k⟩

/-- The request `generate_css` posts: its context embeds exactly the HTML
then the JavaScript artifact, in that order. -/
def cssRequest (env : Env) (k p html_context js_context : String) : Request :=
  ⟨cssSystemPrompt,
    (cssCtxA ++ html_context ++ cssCtxB ++ js_context ++ cssCtxC) ++ "\n" ++ p,
    DEFAULT_MODEL env, DEFAULT_API_ENDPOINT env, k⟩

/-- The request `generate_tests` posts: its context embeds exactly the HTML,
JavaScript and CSS artifacts, in that order. -/
def testsRequest (env : Env) (k p html_context js_context css_context : String) :
    Request :=
  ⟨testsSystemPrompt,
    (testsCtxA ++ html_context ++ testsCtxB ++ js_context ++ testsCtxC
      ++ css_context ++ testsCtxD) ++ "\n" ++ p,
    DEFAULT_MODEL env, DEFAULT_API_ENDPOINT env, k⟩

/-- The request posted for one auxiliary configuration file: no code
context, only the one-line instruction. -/
def configRequest (env : Env) (k cprompt : String) : Request :=
  ⟨configSystemMessage, cprompt, DEFAULT_MODEL env, DEFAULT_API_ENDPOINT env, k⟩

/-! ## Prompt files and auxiliary configuration files -/

/-- Failure of `read_prompt_file`: `open` raised `FileNotFoundError`. -/
inductive PromptErr where
  | notFound : String → PromptErr
deriving DecidableEq

/-- The `str(e)` of a `FileNotFoundError` for the given path. -/
def promptErrMsg : PromptErr → String
  | .notFound path => "[Errno 2] No such file or directory: \x27" ++ path ++ "\x27"

/-- `read_prompt_file` (lines 28-31) over a filesystem map `fs`: the file's
content stripped, or a NotFound error when the file is absent. -/
def read_prompt_file (fs : String → Option String) (prompt_path : String) :
    Except PromptErr String :=
  match fs prompt_path with
  | some content => .ok (pyStrip content)
  | none => .error (.notFound prompt_path)

/-- Instruction for `babel.config.js`. -/
def babelPrompt : String :=
  "Generate a babel configuration file for a JavaScript project using Jest for testing."

/-- Instruction for `jest.config.js`. -/
def jestPrompt : String :=
  "Generate a Jest configuration file for testing a vanilla JavaScript project."

/-- Instruction for `package.json`. -/
def packagePrompt : String :=
  "Generate a package.json file with all necessary dependencies for a JavaScript project using Jest for testing."

/-- The `config_files` list of `generate_config_files` (lines 192-196). -/
def configFiles : List (String × String) :=
  [("babel.config.js", babelPrompt),
   ("jest.config.js", jestPrompt),
   ("package.json", packagePrompt)]

/-- The loop body of `generate_config_files`: each file is requested with
`model=DEFAULT_MODEL` and `api_key=os.environ.get("LLM_API_KEY")` and its
raw response written; an exception stops the loop and propagates, so the
remaining files are not generated. -/
def goConfigs (env : Env) (oracle : Oracle) :
    List (String × String) →
      List (String × String) × List Request × Option CallFailure
  | [] => ([], [], none)
  | (name, cprompt) :: rest =>
      match call_llm_api env oracle cprompt configSystemMessage
          (some (DEFAULT_MODEL env)) env.llm_api_key none with
      | .error f => ([], callErrRequests f, some f)
      | .ok (req, text) =>
          let r := goConfigs env oracle rest
          ((name, text) :: r.1, req :: r.2.1, r.2.2)

/-- `generate_config_files` (lines 188-212): written files, posted requests,
and the propagated exception if one call failed. -/
def generate_config_files (env : Env) (oracle : Oracle) :
    List (String × String) × List Request × Option CallFailure :=
  goConfigs env oracle configFiles

/-! ## The `main` pipeline -/

/-- Where a message is printed.  Everything `main` prints, including the
error report in its exception handler, goes through `print`, i.e. to
standard output; the program never writes to standard error. -/
inductive Channel where
  | standardOut : Channel
  | standardErr : Channel
deriving DecidableEq

/-- Observable outcome of one `main` run: the process exit code, the files
written in write order (path, content), the completion requests posted in
call order, and the error report of the exception handler (line 289) with
the channel it is printed on.  Progress prints are not part of the model;
no branch of `main` writes to standard error. -/
structure RunResult where
  exitCode : Nat
  files : List (String × String)
  requests : List Request
  errorReport : Option (Channel × String)
deriving DecidableEq

/-- The line printed by `main`'s exception handler (line 289). -/
def mainErrMsg (e : String) : String :=
  "\nError during code generation: " ++ e

/-- `main` (lines 214-290).  The CLI arguments are parsed into `args` but —
exactly as in the source — never used afterwards.  Each stage reads its
prompt, calls its generator, extracts the code and writes the file; any
exception aborts the run with exit code 1 and the handler's message printed
to standard output. -/
def pyMain (env : Env) (args : Args) (fs : String → Option String)
    (oracle : Oracle) : RunResult :=
  match read_prompt_file fs "prompts/calculator-ui.prompt" with
  | .error e => ⟨1, [], [], some (.standardOut, mainErrMsg (promptErrMsg e))⟩
  | .ok ui_prompt =>
  match generate_html env oracle ui_prompt with
  | .error f =>
      ⟨1, [], callErrRequests f, some (.standardOut, mainErrMsg (callErrMsg f))⟩
  | .ok (req1, resp1) =>
  let html_content := extract_code resp1
  let files1 : List (String × String) := [("generated/index.html", html_content)]
  match read_prompt_file fs "prompts/business-logic.prompt" with
  | .error e =>
      ⟨1, files1, [req1], some (.standardOut, mainErrMsg (promptErrMsg e))⟩
  | .ok logic_prompt =>
  match generate_javascript env oracle logic_prompt html_content with
  | .error f =>
      ⟨1, files1, [req1] ++ callErrRequests f,
        some (.standardOut, mainErrMsg (callErrMsg f))⟩
  | .ok (req2, resp2) =>
  let js_content := extract_code resp2
  let files2 := files1 ++ [("generated/app.js", js_content)]
  match read_prompt_file fs "prompts/styling.prompt" with
  | .error e =>
      ⟨1, files2, [req1, req2], some (.standardOut, mainErrMsg (promptErrMsg e))⟩
  | .ok style_prompt =>
  match generate_css env oracle style_prompt html_content js_content with
  | .error f =>
      ⟨1, files2, [req1, req2] ++ callErrRequests f,
        some (.standardOut, mainErrMsg (callErrMsg f))⟩
  | .ok (req3, resp3) =>
  let css_content := extract_code resp3
  let files3 := files2 ++ [("generated/style.css", css_content)]
  match read_prompt_file fs "prompts/tests.prompt" with
  | .error e =>
      ⟨1, files3, [req1, req2, req3],
        some (.standardOut, mainErrMsg (promptErrMsg e))⟩
  | .ok test_prompt =>
  match generate_tests env oracle test_prompt html_content js_content css_content with
  | .error f =>
      ⟨1, files3, [req1, req2, req3] ++ callErrRequests f,
        some (.standardOut, mainErrMsg (callErrMsg f))⟩
  | .ok (req4, resp4) =>
  let test_content := extract_code resp4
  let files4 := files3 ++ [("generated/tests/calculator.test.js", test_content)]
  let cfg := generate_config_files env oracle
  match cfg.2.2 with
  | some f =>
      ⟨1, files4 ++ cfg.1, [req1, req2, req3, req4] ++ cfg.2.1,
        some (.standardOut, mainErrMsg (callErrMsg f))⟩
  | none =>
      ⟨0, files4 ++ cfg.1, [req1, req2, req3, req4] ++ cfg.2.1, none⟩

/-! ## Lemmas about the stripping functions -/

theorem lstrip_head {l : List Char} {c : Char}
    (h : (lstrip l).head? = some c) : pyIsSpace c = false := by
  induction l with
  | nil => simp [lstrip] at h
  | cons d ds ih =>
      by_cases hd : pyIsSpace d
      · exact ih (by simpa [lstrip, hd] using h)
      · simp only [lstrip, hd, if_neg, Bool.false_eq_true, if_false,
          List.head?_cons] at h
        cases h; simpa using hd

theorem lstrip_eq_self {l : List Char}
    (h : ∀ c, l.head? = some c → pyIsSpace c = false) : lstrip l = l := by
  cases l with
  | nil => rfl
  | cons c cs => simp [lstrip, h c rfl]

theorem lstrip_lstrip (l : List Char) : lstrip (lstrip l) = lstrip l :=
  lstrip_eq_self (fun _ hc => lstrip_head hc)

theorem exists_append_lstrip (l : List Char) : ∃ s, l = s ++ lstrip l := by
  induction l with
  | nil => exact ⟨[], rfl⟩
  | cons c cs ih =>
      by_cases hc : pyIsSpace c
      · obtain ⟨s, hs⟩ := ih
        exact ⟨c :: s, by simp [lstrip, hc, ← hs]⟩
      · exact ⟨[], by simp [lstrip, hc]⟩

theorem lstrip_append (a b : List Char) :
    lstrip (a ++ b) = if lstrip a = [] then lstrip b else lstrip a ++ b := by
  induction a with
  | nil => simp [lstrip]
  | cons c cs ih =>
      by_cases hc : pyIsSpace c
      · simpa [lstrip, hc] using ih
      · simp [lstrip, hc]

theorem rstripL_rstripL (l : List Char) : rstripL (rstripL l) = rstripL l := by
  simp [rstripL, lstrip_lstrip]

theorem exists_append_rstrip (l : List Char) : ∃ t, l = rstripL l ++ t := by
  obtain ⟨s, hs⟩ := exists_append_lstrip l.reverse
  refine ⟨s.reverse, ?_⟩
  conv_lhs => rw [← l.reverse_reverse, hs]
  simp [rstripL]

theorem rstripL_append (a b : List Char) :
    rstripL (a ++ b) = if rstripL b = [] then rstripL a else a ++ rstripL b := by
  unfold rstripL
  rw [List.reverse_append, lstrip_append]
  by_cases hb : lstrip b.reverse = []
  · simp [hb]
  · rw [if_neg hb, if_neg (fun h => hb (by simpa using h))]
    simp

theorem stripL_stripL (l : List Char) : stripL (stripL l) = stripL l := by
  unfold stripL
  have hfix : lstrip (rstripL (lstrip l)) = rstripL (lstrip l) := by
    apply lstrip_eq_self
    intro c hc
    obtain ⟨t, ht⟩ := exists_append_rstrip (lstrip l)
    apply lstrip_head (l := l)
    cases hr : rstripL (lstrip l) with
    | nil => rw [hr] at hc; simp at hc
    | cons d ds =>
        rw [hr] at hc ht
        simp only [List.head?_cons] at hc
        rw [ht]
        simpa using hc
  rw [hfix, rstripL_rstripL]

theorem mem_lstrip {c : Char} {l : List Char} (h : c ∈ l)
    (hc : pyIsSpace c = false) : c ∈ lstrip l := by
  induction l with
  | nil => simp at h
  | cons d ds ih =>
      by_cases hd : pyIsSpace d
      · have : c ∈ ds := by
          rcases List.mem_cons.mp h with rfl | hmem
          · rw [hc] at hd; simp at hd
          · exact hmem
        simpa [lstrip, hd] using ih this
      · simpa [lstrip, hd] using h

theorem mem_stripL {c : Char} {l : List Char} (h : c ∈ l)
    (hc : pyIsSpace c = false) : c ∈ stripL l := by
  have h1 : c ∈ lstrip l := mem_lstrip h hc
  have h2 : c ∈ (lstrip l).reverse := by simpa using h1
  have h3 : c ∈ lstrip (lstrip l).reverse := mem_lstrip h2 hc
  simpa [stripL, rstripL] using h3

theorem stripL_ne_nil {c : Char} {l : List Char} (h : c ∈ l)
    (hc : pyIsSpace c = false) : stripL l ≠ [] :=
  List.ne_nil_of_mem (mem_stripL h hc)

theorem lstrip_eq_nil_of_space {l : List Char}
    (h : ∀ c ∈ l, pyIsSpace c = true) : lstrip l = [] := by
  induction l with
  | nil => rfl
  | cons c cs ih =>
      simp only [lstrip, h c (List.mem_cons_self c cs), if_true]
      exact ih (fun d hd => h d (List.mem_cons_of_mem c hd))

theorem stripL_append_left_space {s : List Char} (m : List Char)
    (h : ∀ c ∈ s, pyIsSpace c = true) : stripL (s ++ m) = stripL m := by
  unfold stripL
  rw [lstrip_append, lstrip_eq_nil_of_space h, if_pos rfl]

theorem stripL_cons_nl (m : List Char) : stripL ('\n' :: m) = stripL m := by
  have h := stripL_append_left_space (s := ['\n']) m
    (by intro c hc; simp at hc; rw [hc]; decide)
  simpa using h

theorem stripL_append_nl (m : List Char) : stripL (m ++ ['\n']) = stripL m := by
  unfold stripL
  rw [lstrip_append]
  by_cases hm : lstrip m = []
  · rw [if_pos hm, hm, show lstrip ['\n'] = [] from by decide]
  · rw [if_neg hm, rstripL_append]
    have : rstripL ['\n'] = [] := by decide
    rw [this, if_pos rfl]

/-! ## Lemmas about the find functions -/

theorem startsWith_append_self (p r : List Char) :
    startsWith (p ++ r) p = true := by
  induction p with
  | nil => cases r <;> rfl
  | cons c cs ih => simp [startsWith, ih]

theorem findSub_of_startsWith {l sub : List Char}
    (h : startsWith l sub = true) : findSub l sub = some 0 := by
  cases l with
  | nil => simp [findSub, h]
  | cons c cs => simp [findSub, h]

theorem startsWith_nil (l : List Char) : startsWith l [] = true := by
  cases l <;> rfl

theorem startsWith_singleton (d : Char) (ds : List Char) (c : Char) :
    startsWith (d :: ds) [c] = decide (d = c) := by
  simp [startsWith, startsWith_nil]

theorem findSub_singleton_of_mem {c : Char} {l : List Char} (h : c ∈ l) :
    (findSub l [c]).isSome = true := by
  induction l with
  | nil => simp at h
  | cons d ds ih =>
      by_cases hdc : d = c
      · simp [findSub, startsWith_singleton, hdc]
      · have hmem : c ∈ ds := by
          rcases List.mem_cons.mp h with rfl | hm
          · exact absurd rfl hdc
          · exact hm
        simp [findSub, startsWith_singleton, hdc, ih hmem]

theorem mem_of_findSub_singleton {c : Char} {l : List Char}
    (h : (findSub l [c]).isSome = true) : c ∈ l := by
  induction l with
  | nil => simp [findSub, startsWith] at h
  | cons d ds ih =>
      by_cases hdc : d = c
      · simp [hdc]
      · simp only [findSub, startsWith_singleton, hdc, decide_eq_true_eq,
          if_false] at h
        cases hf : findSub ds [c] with
        | none => rw [hf] at h; simp at h
        | some j => exact List.mem_cons_of_mem d (ih (by simp [hf]))

theorem findSub_append_singleton {c : Char} {a : List Char} (hc : c ∉ a)
    (r : List Char) : findSub (a ++ c :: r) [c] = some a.length := by
  induction a with
  | nil =>
      apply findSub_of_startsWith
      simp [startsWith_singleton]
  | cons d ds ih =>
      have hdc : ¬ d = c := fun h => hc (h ▸ List.mem_cons_self d ds)
      rw [List.cons_append]
      have hrec := ih (fun h => hc (List.mem_cons_of_mem d h))
      simp [findSub, startsWith_singleton, hdc, hrec]

theorem fence_reverse : fence.reverse = fence := by decide

theorem rfindSub_append_fence (a : List Char) :
    rfindSub (a ++ fence) fence = some a.length := by
  unfold rfindSub
  rw [List.reverse_append, fence_reverse,
    findSub_of_startsWith (startsWith_append_self fence a.reverse)]
  simp [show fence.length = 3 from rfl]

/-! ## Reduction lemmas for `extractL` -/

theorem extractL_none {l : List Char} (hf : findSub l fence = none) :
    extractL l = stripL l := by
  unfold extractL
  rw [hf]

theorem extractL_some_noskip {l : List Char} {i : Nat}
    (hf : findSub l fence = some i)
    (hc : ((stripL ((l.drop (i + 3)).take 10)).isEmpty
        || (findSub ((l.drop (i + 3)).take 20) ['\n']).isNone) = true) :
    extractL l = stripL (sliceL l (i + 3) ((rfindSub l fence).getD 0)) := by
  unfold extractL
  rw [hf]
  simp only [hc, if_true]

theorem extractL_some_skip {l : List Char} {i j : Nat}
    (hf : findSub l fence = some i)
    (hc : ((stripL ((l.drop (i + 3)).take 10)).isEmpty
        || (findSub ((l.drop (i + 3)).take 20) ['\n']).isNone) = false)
    (hj : findSub (l.drop (i + 3)) ['\n'] = some j) :
    extractL l = stripL (sliceL l (i + 3 + j + 1) ((rfindSub l fence).getD 0)) := by
  unfold extractL
  rw [hf]
  simp only [hc, Bool.false_eq_true, if_false, hj]

theorem stripL_extractL (l : List Char) : stripL (extractL l) = extractL l := by
  unfold extractL
  cases hf : findSub l fence with
  | none => exact stripL_stripL l
  | some i =>
      simp only []
      exact stripL_stripL _

/-! ## Extraction of a well-formed fenced block -/

theorem extractL_fenced (L C : List Char) (hnl : ('\n' : Char) ∉ L)
    (hcase : (∀ c ∈ L, pyIsSpace c = true) ∨
      (L.length ≤ 19 ∧ ∃ c ∈ L.take 10, pyIsSpace c = false)) :
    extractL (fence ++ (L ++ '\n' :: (C ++ '\n' :: fence))) = stripL C := by
  have hflen : fence.length = 3 := rfl
  set rest : List Char := L ++ '\n' :: (C ++ '\n' :: fence) with hrest
  have hfind : findSub (fence ++ rest) fence = some 0 :=
    findSub_of_startsWith (startsWith_append_self fence rest)
  have hdrop : (fence ++ rest).drop (0 + 3) = rest := by
    rw [Nat.zero_add, ← hflen]
    exact List.drop_left fence rest
  have hsplitEnd : fence ++ rest = (fence ++ L ++ ['\n'] ++ C ++ ['\n']) ++ fence := by
    simp [hrest]
  have hlenEnd : (fence ++ L ++ ['\n'] ++ C ++ ['\n']).length
      = L.length + C.length + 5 := by
    simp [hflen]
    omega
  have hrfind : rfindSub (fence ++ rest) fence = some (L.length + C.length + 5) := by
    rw [hsplitEnd, rfindSub_append_fence, hlenEnd]
  have hj : findSub ((fence ++ rest).drop (0 + 3)) ['\n'] = some L.length := by
    rw [hdrop, hrest]
    exact findSub_append_singleton hnl _
  have hsliceSkip :
      sliceL (fence ++ rest) (0 + 3 + L.length + 1) (L.length + C.length + 5)
        = C ++ ['\n'] := by
    unfold sliceL
    have h1 : fence ++ rest = (fence ++ L ++ ['\n']) ++ (C ++ ['\n'] ++ fence) := by
      simp [hrest]
    have h2 : (fence ++ L ++ ['\n']).length = 0 + 3 + L.length + 1 := by
      simp [hflen]
      omega
    rw [h1, show (0 + 3 + L.length + 1) = (fence ++ L ++ ['\n']).length from h2.symm,
      List.drop_left]
    rw [show L.length + C.length + 5 - (fence ++ L ++ ['\n']).length = C.length + 1 from by
      rw [h2]; omega]
    rw [List.take_append_eq_append_take]
    have hlc : (C ++ ['\n']).length = C.length + 1 := by simp
    rw [List.take_of_length_le (le_of_eq hlc), hlc]
    simp
  have hskipResult : stripL (C ++ ['\n']) = stripL C := stripL_append_nl C
  rcases hcase with hsp | ⟨h19, c, hc10, hcns⟩
  · -- the language-tag line is all whitespace: either branch yields `stripL C`
    by_cases hcond : ((stripL (((fence ++ rest).drop (0 + 3)).take 10)).isEmpty
        || (findSub (((fence ++ rest).drop (0 + 3)).take 20) ['\n']).isNone) = true
    · rw [extractL_some_noskip hfind hcond]
      rw [show (rfindSub (fence ++ rest) fence).getD 0 = L.length + C.length + 5 from by
        rw [hrfind]; rfl]
      have hsliceNoSkip :
          sliceL (fence ++ rest) (0 + 3) (L.length + C.length + 5)
            = L ++ '\n' :: (C ++ ['\n']) := by
        unfold sliceL
        rw [hdrop]
        rw [show L.length + C.length + 5 - (0 + 3) = L.length + C.length + 2 from by omega]
        rw [hrest]
        have h4 : L ++ '\n' :: (C ++ '\n' :: fence)
            = (L ++ '\n' :: (C ++ ['\n'])) ++ fence := by simp
        rw [h4, show L.length + C.length + 2 = (L ++ '\n' :: (C ++ ['\n'])).length from by
          simp; omega]
        exact List.take_left _ _
      rw [hsliceNoSkip, stripL_append_left_space _ hsp, stripL_cons_nl, stripL_append_nl]
    · have hcond' : ((stripL (((fence ++ rest).drop (0 + 3)).take 10)).isEmpty
          || (findSub (((fence ++ rest).drop (0 + 3)).take 20) ['\n']).isNone) = false :=
        Bool.eq_false_iff.mpr hcond
      rw [extractL_some_skip hfind hcond' hj]
      rw [show (rfindSub (fence ++ rest) fence).getD 0 = L.length + C.length + 5 from by
        rw [hrfind]; rfl]
      rw [hsliceSkip, hskipResult]
  · -- a genuine language tag: the skip branch is taken
    have hw10 : (stripL (((fence ++ rest).drop (0 + 3)).take 10)).isEmpty = false := by
      rw [hdrop]
      have hcw : c ∈ rest.take 10 := by
        rw [hrest, List.take_append_eq_append_take]
        exact List.mem_append_left _ hc10
      simp [List.isEmpty_iff]
      exact stripL_ne_nil hcw hcns
    have hw20 : (findSub (((fence ++ rest).drop (0 + 3)).take 20) ['\n']).isNone = false := by
      rw [hdrop]
      have hmem : ('\n' : Char) ∈ rest.take 20 := by
        rw [hrest, List.take_append_eq_append_take,
          List.take_of_length_le (by omega : L.length ≤ 20),
          show 20 - L.length = (19 - L.length) + 1 from by omega]
        exact List.mem_append_right _ (List.mem_cons_self _ _)
      have := findSub_singleton_of_mem hmem
      simp [Option.isNone_eq_false_iff]
      simpa [Option.isSome_iff_exists] using this
    have hcond' : ((stripL (((fence ++ rest).drop (0 + 3)).take 10)).isEmpty
        || (findSub (((fence ++ rest).drop (0 + 3)).take 20) ['\n']).isNone) = false := by
      rw [hw10, hw20]
      rfl
    rw [extractL_some_skip hfind hcond' hj]
    rw [show (rfindSub (fence ++ rest) fence).getD 0 = L.length + C.length + 5 from by
      rw [hrfind]; rfl]
    rw [hsliceSkip, hskipResult]

theorem data_append (a b : String) : (a ++ b).data = a.data ++ b.data := rfl

/-- Shared helper: on a response with no fence delimiter, `extract_code`
strips the response. -/
theorem extract_code_eq_strip {x : String}
    (hf : findSub x.data fence = none) : extract_code x = pyStrip x := by
  unfold extract_code pyStrip
  rw [extractL_none hf]

/-- Shared helper: `containsSub x fenceS = false` gives a failed find. -/
theorem findSub_none_of_not_contains {x : String}
    (h : containsSub x fenceS = false) : findSub x.data fence = none := by
  cases hfs : findSub x.data fence with
  | none => rfl
  | some v =>
      unfold containsSub at h
      rw [show fenceS.data = fence from rfl, hfs] at h
      simp at h

/-! ## Claims about `extract_code` -/

/-- C5 counterexample: `extract_code` is not idempotent.  On
`"a‌```b```c```d"` the first pass keeps an interior fence delimiter in its
result, and the second pass slices between that delimiter's two ends,
discarding everything. -/
theorem extract_code_not_idempotent :
    extract_code (extract_code "a\x60\x60\x60b\x60\x60\x60c\x60\x60\x60d")
      ≠ extract_code "a\x60\x60\x60b\x60\x60\x60c\x60\x60\x60d" := by
  decide

/-- C5 (amended): `extract_code` is idempotent on every input whose
extraction result contains no fence delimiter — in particular on all
fence-free inputs and on all well-formed single-fenced inputs whose inner
code has no fence. -/
theorem extract_code_idempotent_unfenced (x : String)
    (h : containsSub (extract_code x) fenceS = false) :
    extract_code (extract_code x) = extract_code x := by
  rw [extract_code_eq_strip (findSub_none_of_not_contains h)]
  exact congrArg String.mk (stripL_extractL x.data)

/-- C5 witness: a concrete idempotent input. -/
theorem extract_code_idempotent_unfenced_witness :
    containsSub (extract_code "  hi there  ") fenceS = false ∧
      extract_code (extract_code "  hi there  ") = extract_code "  hi there  " :=
  ⟨by decide, extract_code_idempotent_unfenced "  hi there  " (by decide)⟩

/-- C6 counterexample: for a response wrapped as a single fenced block whose
language tag line is 20 characters long, no newline falls within the
20-character window the code inspects, so the language tag line is not
skipped and the result is not the trimmed code. -/
theorem extract_code_fenced_block_counterexample :
    extract_code "\x60\x60\x60aaaaaaaaaaaaaaaaaaaa\ncode\n\x60\x60\x60" ≠ "code" := by
  decide

/-- C6 (amended): for a response wrapped as `fence ++ lang ++ "\n" ++ code
++ "\n" ++ fence` where the language tag line has no newline, and is either
all whitespace (possibly empty) or is at most 19 characters long with a
non-whitespace character among its first 10 characters, `extract_code`
returns exactly the trimmed code. -/
theorem extract_code_fenced_block (lang code : String)
    (hnl : ('\n' : Char) ∉ lang.data)
    (hcase : (∀ c ∈ lang.data, pyIsSpace c = true) ∨
      (lang.data.length ≤ 19 ∧ ∃ c ∈ lang.data.take 10, pyIsSpace c = false)) :
    extract_code (fenceS ++ lang ++ "\n" ++ code ++ "\n" ++ fenceS)
      = pyStrip code := by
  have hdata : (fenceS ++ lang ++ "\n" ++ code ++ "\n" ++ fenceS).data
      = fence ++ (lang.data ++ '\n' :: (code.data ++ '\n' :: fence)) := by
    simp [data_append, fence, show ("\n" : String).data = ['\n'] from rfl]
  unfold extract_code pyStrip
  rw [hdata, extractL_fenced lang.data code.data hnl hcase]

/-- C6 witness: a concrete fenced response with language tag `html`. -/
theorem extract_code_fenced_block_witness :
    extract_code (fenceS ++ "html" ++ "\n" ++ "code" ++ "\n" ++ fenceS)
      = pyStrip "code" :=
  extract_code_fenced_block "html" "code" (by decide)
    (Or.inr ⟨by decide, by decide⟩)

/-- C7: on any input containing no fence delimiter, `extract_code` returns
the trimmed input. -/
theorem extract_code_no_fence (x : String)
    (h : containsSub x fenceS = false) : extract_code x = pyStrip x :=
  extract_code_eq_strip (findSub_none_of_not_contains h)

/-- C7 witness: a concrete fence-free input. -/
theorem extract_code_no_fence_witness :
    containsSub "  raw text  " fenceS = false ∧
      extract_code "  raw text  " = pyStrip "  raw text  " :=
  ⟨by decide, extract_code_no_fence "  raw text  " (by decide)⟩

/-- C10: when the first and last occurrences of the fence delimiter
coincide (a single delimiter, no separate closing one), `extract_code`
returns the empty string — the whole response is discarded. -/
theorem extract_code_single_delimiter (x : String) (i : Nat)
    (hf : findSub x.data fence = some i)
    (hr : rfindSub x.data fence = some i) :
    extract_code x = "" := by
  unfold extract_code
  by_cases hc : ((stripL ((x.data.drop (i + 3)).take 10)).isEmpty
      || (findSub ((x.data.drop (i + 3)).take 20) ['\n']).isNone) = true
  · rw [extractL_some_noskip hf hc, hr]
    show String.mk (stripL (sliceL x.data (i + 3) ((some i).getD 0))) = ""
    unfold sliceL
    rw [show (some i).getD 0 = i from rfl,
      show i - (i + 3) = 0 from by omega]
    rfl
  · have hc' : ((stripL ((x.data.drop (i + 3)).take 10)).isEmpty
        || (findSub ((x.data.drop (i + 3)).take 20) ['\n']).isNone) = false :=
      Bool.eq_false_iff.mpr hc
    have h2 : (findSub ((x.data.drop (i + 3)).take 20) ['\n']).isNone = false :=
      (Bool.or_eq_false_iff.mp hc').2
    have hmem20 : ('\n' : Char) ∈ (x.data.drop (i + 3)).take 20 := by
      apply mem_of_findSub_singleton
      cases hfs : findSub ((x.data.drop (i + 3)).take 20) ['\n'] with
      | none => rw [hfs] at h2; simp at h2
      | some v => rfl
    have hmem : ('\n' : Char) ∈ x.data.drop (i + 3) :=
      List.take_subset _ _ hmem20
    obtain ⟨j, hj⟩ := Option.isSome_iff_exists.mp (findSub_singleton_of_mem hmem)
    rw [extractL_some_skip hf hc' hj, hr]
    show String.mk (stripL (sliceL x.data (i + 3 + j + 1) ((some i).getD 0))) = ""
    unfold sliceL
    rw [show (some i).getD 0 = i from rfl,
      show i - (i + 3 + j + 1) = 0 from by omega]
    rfl

/-- C10 witness: `"abc```def"` has its first and last delimiter at index 3
and extracts to the empty string. -/
theorem extract_code_single_delimiter_witness :
    findSub ("abc\x60\x60\x60def" : String).data fence = some 3 ∧
      rfindSub ("abc\x60\x60\x60def" : String).data fence = some 3 ∧
      extract_code "abc\x60\x60\x60def" = "" :=
  ⟨by decide, by decide,
    extract_code_single_delimiter "abc\x60\x60\x60def" 3 (by decide) (by decide)⟩

/-! ## Reduction lemmas for the pipeline -/

theorem orTruthy_self (d : String) : orTruthy (some d) d = d := by
  unfold orTruthy truthyOpt
  by_cases h : d = ""
  · simp [h]
  · simp [h]

theorem call_llm_api_default_key (env : Env) (oracle : Oracle) {k : String}
    (hk : truthyOpt env.llm_api_key = some k) (prompt sysmsg : String) :
    call_llm_api env oracle prompt sysmsg none none none =
      (match oracle ⟨sysmsg, prompt, DEFAULT_MODEL env, DEFAULT_API_ENDPOINT env, k⟩ with
        | .ok text =>
            .ok (⟨sysmsg, prompt, DEFAULT_MODEL env, DEFAULT_API_ENDPOINT env, k⟩, text)
        | .error e =>
            .error (.apiError
              ⟨sysmsg, prompt, DEFAULT_MODEL env, DEFAULT_API_ENDPOINT env, k⟩ e)) := by
  unfold call_llm_api
  rw [show resolveKey none env.llm_api_key = truthyOpt env.llm_api_key from rfl, hk]
  rfl

theorem call_llm_api_config_key (env : Env) (oracle : Oracle) {k : String}
    (hk : truthyOpt env.llm_api_key = some k) (cprompt : String) :
    call_llm_api env oracle cprompt configSystemMessage
        (some (DEFAULT_MODEL env)) env.llm_api_key none =
      (match oracle (configRequest env k cprompt) with
        | .ok text => .ok (configRequest env k cprompt, text)
        | .error e => .error (.apiError (configRequest env k cprompt) e)) := by
  unfold call_llm_api configRequest
  have hres : resolveKey env.llm_api_key env.llm_api_key = some k := by
    unfold resolveKey
    rw [hk]
  rw [hres, orTruthy_self]
  rfl

theorem generate_html_eq (env : Env) (oracle : Oracle) {k : String}
    (hk : truthyOpt env.llm_api_key = some k) (p : String) :
    generate_html env oracle p =
      (match oracle (htmlRequest env k p) with
        | .ok text => .ok (htmlRequest env k p, text)
        | .error e => .error (.apiError (htmlRequest env k p) e)) := by
  unfold generate_html htmlRequest
  exact call_llm_api_default_key env oracle hk _ _

theorem generate_javascript_eq (env : Env) (oracle : Oracle) {k : String}
    (hk : truthyOpt env.llm_api_key = some k) (p h : String) :
    generate_javascript env oracle p h =
      (match oracle (jsRequest env k p h) with
        | .ok text => .ok (jsRequest env k p h, text)
        | .error e => .error (.apiError (jsRequest env k p h) e)) := by
  unfold generate_javascript jsRequest
  exact call_llm_api_default_key env oracle hk _ _

theorem generate_css_eq (env : Env) (oracle : Oracle) {k : String}
    (hk : truthyOpt env.llm_api_key = some k) (p h j : String) :
    generate_css env oracle p h j =
      (match oracle (cssRequest env k p h j) with
        | .ok text => .ok (cssRequest env k p h j, text)
        | .error e => .error (.apiError (cssRequest env k p h j) e)) := by
  unfold generate_css cssRequest
  exact call_llm_api_default_key env oracle hk _ _

theorem generate_tests_eq (env : Env) (oracle : Oracle) {k : String}
    (hk : truthyOpt env.llm_api_key = some k) (p h j c : String) :
    generate_tests env oracle p h j c =
      (match oracle (testsRequest env k p h j c) with
        | .ok text => .ok (testsRequest env k p h j c, text)
        | .error e => .error (.apiError (testsRequest env k p h j c) e)) := by
  unfold generate_tests testsRequest
  exact call_llm_api_default_key env oracle hk _ _

/-! ## Run scenarios of `main` -/

/-- A fully successful run: every prompt file present, every completion
succeeding.  The four primary artifacts are persisted in stage order with
exactly the extracted contents; each stage request embeds exactly the
artifacts of the earlier stages, in creation order; the three auxiliary
files carry the raw config responses; exit code 0. -/
theorem pyMain_success (env : Env) (args : Args) (fs : String → Option String)
    (oracle : Oracle) {k : String} (p1 p2 p3 p4 r1 r2 r3 r4 c1 c2 c3 : String)
    (hk : truthyOpt env.llm_api_key = some k)
    (h1 : fs "prompts/calculator-ui.prompt" = some p1)
    (h2 : fs "prompts/business-logic.prompt" = some p2)
    (h3 : fs "prompts/styling.prompt" = some p3)
    (h4 : fs "prompts/tests.prompt" = some p4)
    (ho1 : oracle (htmlRequest env k (pyStrip p1)) = .ok r1)
    (ho2 : oracle (jsRequest env k (pyStrip p2) (extract_code r1)) = .ok r2)
    (ho3 : oracle (cssRequest env k (pyStrip p3)
      (extract_code r1) (extract_code r2)) = .ok r3)
    (ho4 : oracle (testsRequest env k (pyStrip p4)
      (extract_code r1) (extract_code r2) (extract_code r3)) = .ok r4)
    (hc1 : oracle (configRequest env k babelPrompt) = .ok c1)
    (hc2 : oracle (configRequest env k jestPrompt) = .ok c2)
    (hc3 : oracle (configRequest env k packagePrompt) = .ok c3) :
    pyMain env args fs oracle =
      ⟨0,
       [("generated/index.html", extract_code r1),
        ("generated/app.js", extract_code r2),
        ("generated/style.css", extract_code r3),
        ("generated/tests/calculator.test.js", extract_code r4),
        ("babel.config.js", c1), ("jest.config.js", c2), ("package.json", c3)],
       [htmlRequest env k (pyStrip p1),
        jsRequest env k (pyStrip p2) (extract_code r1),
        cssRequest env k (pyStrip p3) (extract_code r1) (extract_code r2),
        testsRequest env k (pyStrip p4)
          (extract_code r1) (extract_code r2) (extract_code r3),
        configRequest env k babelPrompt, configRequest env k jestPrompt,
        configRequest env k packagePrompt],
       none⟩ := by
  simp only [pyMain, read_prompt_file, h1, h2, h3, h4,
    generate_html_eq env oracle hk, generate_javascript_eq env oracle hk,
    generate_css_eq env oracle hk, generate_tests_eq env oracle hk,
    ho1, ho2, ho3, ho4,
    generate_config_files, goConfigs, configFiles,
    call_llm_api_config_key env oracle hk, hc1, hc2, hc3]
  rfl

/-- The UI prompt file is absent: nothing is posted, nothing is written,
exit code 1, the `FileNotFoundError` text printed to standard output. -/
theorem pyMain_ui_missing (env : Env) (args : Args) (fs : String → Option String)
    (oracle : Oracle) (h1 : fs "prompts/calculator-ui.prompt" = none) :
    pyMain env args fs oracle =
      ⟨1, [], [], some (.standardOut, mainErrMsg
        (promptErrMsg (.notFound "prompts/calculator-ui.prompt")))⟩ := by
  simp only [pyMain, read_prompt_file, h1]

/-- The HTML completion fails: the run aborts before any file is written,
with only the HTML request posted. -/
theorem pyMain_html_fail (env : Env) (args : Args) (fs : String → Option String)
    (oracle : Oracle) {k : String} (p1 e : String)
    (hk : truthyOpt env.llm_api_key = some k)
    (h1 : fs "prompts/calculator-ui.prompt" = some p1)
    (ho1 : oracle (htmlRequest env k (pyStrip p1)) = .error e) :
    pyMain env args fs oracle =
      ⟨1, [], [htmlRequest env k (pyStrip p1)],
        some (.standardOut, mainErrMsg e)⟩ := by
  simp only [pyMain, read_prompt_file, h1, generate_html_eq env oracle hk, ho1]
  rfl

/-- The business-logic prompt file is absent after a successful HTML stage:
the HTML artifact stays persisted, the run aborts. -/
theorem pyMain_logic_missing (env : Env) (args : Args)
    (fs : String → Option String) (oracle : Oracle) {k : String} (p1 r1 : String)
    (hk : truthyOpt env.llm_api_key = some k)
    (h1 : fs "prompts/calculator-ui.prompt" = some p1)
    (ho1 : oracle (htmlRequest env k (pyStrip p1)) = .ok r1)
    (h2 : fs "prompts/business-logic.prompt" = none) :
    pyMain env args fs oracle =
      ⟨1, [("generated/index.html", extract_code r1)],
        [htmlRequest env k (pyStrip p1)],
        some (.standardOut, mainErrMsg
          (promptErrMsg (.notFound "prompts/business-logic.prompt")))⟩ := by
  simp only [pyMain, read_prompt_file, h1, h2,
    generate_html_eq env oracle hk, ho1]

/-- The Script completion fails: the HTML artifact stays persisted, no later
file is written, stages 3 and 4 never run. -/
theorem pyMain_js_fail (env : Env) (args : Args) (fs : String → Option String)
    (oracle : Oracle) {k : String} (p1 p2 r1 e : String)
    (hk : truthyOpt env.llm_api_key = some k)
    (h1 : fs "prompts/calculator-ui.prompt" = some p1)
    (h2 : fs "prompts/business-logic.prompt" = some p2)
    (ho1 : oracle (htmlRequest env k (pyStrip p1)) = .ok r1)
    (ho2 : oracle (jsRequest env k (pyStrip p2) (extract_code r1)) = .error e) :
    pyMain env args fs oracle =
      ⟨1, [("generated/index.html", extract_code r1)],
        [htmlRequest env k (pyStrip p1),
         jsRequest env k (pyStrip p2) (extract_code r1)],
        some (.standardOut, mainErrMsg e)⟩ := by
  simp only [pyMain, read_prompt_file, h1, h2, generate_html_eq env oracle hk,
    generate_javascript_eq env oracle hk, ho1, ho2]
  rfl

/-- The Style completion fails: HTML and Script artifacts stay persisted, no
later file is written, stage 4 never runs. -/
theorem pyMain_css_fail (env : Env) (args : Args) (fs : String → Option String)
    (oracle : Oracle) {k : String} (p1 p2 p3 r1 r2 e : String)
    (hk : truthyOpt env.llm_api_key = some k)
    (h1 : fs "prompts/calculator-ui.prompt" = some p1)
    (h2 : fs "prompts/business-logic.prompt" = some p2)
    (h3 : fs "prompts/styling.prompt" = some p3)
    (ho1 : oracle (htmlRequest env k (pyStrip p1)) = .ok r1)
    (ho2 : oracle (jsRequest env k (pyStrip p2) (extract_code r1)) = .ok r2)
    (ho3 : oracle (cssRequest env k (pyStrip p3)
      (extract_code r1) (extract_code r2)) = .error e) :
    pyMain env args fs oracle =
      ⟨1, [("generated/index.html", extract_code r1),
           ("generated/app.js", extract_code r2)],
        [htmlRequest env k (pyStrip p1),
         jsRequest env k (pyStrip p2) (extract_code r1),
         cssRequest env k (pyStrip p3) (extract_code r1) (extract_code r2)],
        some (.standardOut, mainErrMsg e)⟩ := by
  simp only [pyMain, read_prompt_file, h1, h2, h3, generate_html_eq env oracle hk,
    generate_javascript_eq env oracle hk, generate_css_eq env oracle hk,
    ho1, ho2, ho3]
  rfl

/-- The Tests completion fails: the three earlier artifacts stay persisted,
no test file is written, no auxiliary file is generated. -/
theorem pyMain_tests_fail (env : Env) (args : Args) (fs : String → Option String)
    (oracle : Oracle) {k : String} (p1 p2 p3 p4 r1 r2 r3 e : String)
    (hk : truthyOpt env.llm_api_key = some k)
    (h1 : fs "prompts/calculator-ui.prompt" = some p1)
    (h2 : fs "prompts/business-logic.prompt" = some p2)
    (h3 : fs "prompts/styling.prompt" = some p3)
    (h4 : fs "prompts/tests.prompt" = some p4)
    (ho1 : oracle (htmlRequest env k (pyStrip p1)) = .ok r1)
    (ho2 : oracle (jsRequest env k (pyStrip p2) (extract_code r1)) = .ok r2)
    (ho3 : oracle (cssRequest env k (pyStrip p3)
      (extract_code r1) (extract_code r2)) = .ok r3)
    (ho4 : oracle (testsRequest env k (pyStrip p4)
      (extract_code r1) (extract_code r2) (extract_code r3)) = .error e) :
    pyMain env args fs oracle =
      ⟨1, [("generated/index.html", extract_code r1),
           ("generated/app.js", extract_code r2),
           ("generated/style.css", extract_code r3)],
        [htmlRequest env k (pyStrip p1),
         jsRequest env k (pyStrip p2) (extract_code r1),
         cssRequest env k (pyStrip p3) (extract_code r1) (extract_code r2),
         testsRequest env k (pyStrip p4)
           (extract_code r1) (extract_code r2) (extract_code r3)],
        some (.standardOut, mainErrMsg e)⟩ := by
  simp only [pyMain, read_prompt_file, h1, h2, h3, h4,
    generate_html_eq env oracle hk, generate_javascript_eq env oracle hk,
    generate_css_eq env oracle hk, generate_tests_eq env oracle hk,
    ho1, ho2, ho3, ho4]
  rfl

/-- The `babel.config.js` completion fails after the four primary stages
succeeded: the four primary artifacts stay persisted, but the two remaining
auxiliary files are never generated and the run exits 1. -/
theorem pyMain_babel_fail (env : Env) (args : Args) (fs : String → Option String)
    (oracle : Oracle) {k : String} (p1 p2 p3 p4 r1 r2 r3 r4 e : String)
    (hk : truthyOpt env.llm_api_key = some k)
    (h1 : fs "prompts/calculator-ui.prompt" = some p1)
    (h2 : fs "prompts/business-logic.prompt" = some p2)
    (h3 : fs "prompts/styling.prompt" = some p3)
    (h4 : fs "prompts/tests.prompt" = some p4)
    (ho1 : oracle (htmlRequest env k (pyStrip p1)) = .ok r1)
    (ho2 : oracle (jsRequest env k (pyStrip p2) (extract_code r1)) = .ok r2)
    (ho3 : oracle (cssRequest env k (pyStrip p3)
      (extract_code r1) (extract_code r2)) = .ok r3)
    (ho4 : oracle (testsRequest env k (pyStrip p4)
      (extract_code r1) (extract_code r2) (extract_code r3)) = .ok r4)
    (hc1 : oracle (configRequest env k babelPrompt) = .error e) :
    pyMain env args fs oracle =
      ⟨1, [("generated/index.html", extract_code r1),
           ("generated/app.js", extract_code r2),
           ("generated/style.css", extract_code r3),
           ("generated/tests/calculator.test.js", extract_code r4)],
        [htmlRequest env k (pyStrip p1),
         jsRequest env k (pyStrip p2) (extract_code r1),
         cssRequest env k (pyStrip p3) (extract_code r1) (extract_code r2),
         testsRequest env k (pyStrip p4)
           (extract_code r1) (extract_code r2) (extract_code r3),
         configRequest env k babelPrompt],
        some (.standardOut, mainErrMsg e)⟩ := by
  simp only [pyMain, read_prompt_file, h1, h2, h3, h4,
    generate_html_eq env oracle hk, generate_javascript_eq env oracle hk,
    generate_css_eq env oracle hk, generate_tests_eq env oracle hk,
    ho1, ho2, ho3, ho4,
    generate_config_files, goConfigs, configFiles,
    call_llm_api_config_key env oracle hk, hc1]
  rfl

/-- The `jest.config.js` completion fails: `babel.config.js` and the
primary artifacts stay persisted, `package.json` is never generated. -/
theorem pyMain_jest_fail (env : Env) (args : Args) (fs : String → Option String)
    (oracle : Oracle) {k : String} (p1 p2 p3 p4 r1 r2 r3 r4 c1 e : String)
    (hk : truthyOpt env.llm_api_key = some k)
    (h1 : fs "prompts/calculator-ui.prompt" = some p1)
    (h2 : fs "prompts/business-logic.prompt" = some p2)
    (h3 : fs "prompts/styling.prompt" = some p3)
    (h4 : fs "prompts/tests.prompt" = some p4)
    (ho1 : oracle (htmlRequest env k (pyStrip p1)) = .ok r1)
    (ho2 : oracle (jsRequest env k (pyStrip p2) (extract_code r1)) = .ok r2)
    (ho3 : oracle (cssRequest env k (pyStrip p3)
      (extract_code r1) (extract_code r2)) = .ok r3)
    (ho4 : oracle (testsRequest env k (pyStrip p4)
      (extract_code r1) (extract_code r2) (extract_code r3)) = .ok r4)
    (hc1 : oracle (configRequest env k babelPrompt) = .ok c1)
    (hc2 : oracle (configRequest env k jestPrompt) = .error e) :
    pyMain env args fs oracle =
      ⟨1, [("generated/index.html", extract_code r1),
           ("generated/app.js", extract_code r2),
           ("generated/style.css", extract_code r3),
           ("generated/tests/calculator.test.js", extract_code r4),
           ("babel.config.js", c1)],
        [htmlRequest env k (pyStrip p1),
         jsRequest env k (pyStrip p2) (extract_code r1),
         cssRequest env k (pyStrip p3) (extract_code r1) (extract_code r2),
         testsRequest env k (pyStrip p4)
           (extract_code r1) (extract_code r2) (extract_code r3),
         configRequest env k babelPrompt, configRequest env k jestPrompt],
        some (.standardOut, mainErrMsg e)⟩ := by
  simp only [pyMain, read_prompt_file, h1, h2, h3, h4,
    generate_html_eq env oracle hk, generate_javascript_eq env oracle hk,
    generate_css_eq env oracle hk, generate_tests_eq env oracle hk,
    ho1, ho2, ho3, ho4,
    generate_config_files, goConfigs, configFiles,
    call_llm_api_config_key env oracle hk, hc1, hc2]
  rfl

/-- The `package.json` completion fails: everything before it stays
persisted; the run still exits 1. -/
theorem pyMain_package_fail (env : Env) (args : Args) (fs : String → Option String)
    (oracle : Oracle) {k : String} (p1 p2 p3 p4 r1 r2 r3 r4 c1 c2 e : String)
    (hk : truthyOpt env.llm_api_key = some k)
    (h1 : fs "prompts/calculator-ui.prompt" = some p1)
    (h2 : fs "prompts/business-logic.prompt" = some p2)
    (h3 : fs "prompts/styling.prompt" = some p3)
    (h4 : fs "prompts/tests.prompt" = some p4)
    (ho1 : oracle (htmlRequest env k (pyStrip p1)) = .ok r1)
    (ho2 : oracle (jsRequest env k (pyStrip p2) (extract_code r1)) = .ok r2)
    (ho3 : oracle (cssRequest env k (pyStrip p3)
      (extract_code r1) (extract_code r2)) = .ok r3)
    (ho4 : oracle (testsRequest env k (pyStrip p4)
      (extract_code r1) (extract_code r2) (extract_code r3)) = .ok r4)
    (hc1 : oracle (configRequest env k babelPrompt) = .ok c1)
    (hc2 : oracle (configRequest env k jestPrompt) = .ok c2)
    (hc3 : oracle (configRequest env k packagePrompt) = .error e) :
    pyMain env args fs oracle =
      ⟨1, [("generated/index.html", extract_code r1),
           ("generated/app.js", extract_code r2),
           ("generated/style.css", extract_code r3),
           ("generated/tests/calculator.test.js", extract_code r4),
           ("babel.config.js", c1), ("jest.config.js", c2)],
        [htmlRequest env k (pyStrip p1),
         jsRequest env k (pyStrip p2) (extract_code r1),
         cssRequest env k (pyStrip p3) (extract_code r1) (extract_code r2),
         testsRequest env k (pyStrip p4)
           (extract_code r1) (extract_code r2) (extract_code r3),
         configRequest env k babelPrompt, configRequest env k jestPrompt,
         configRequest env k packagePrompt],
        some (.standardOut, mainErrMsg e)⟩ := by
  simp only [pyMain, read_prompt_file, h1, h2, h3, h4,
    generate_html_eq env oracle hk, generate_javascript_eq env oracle hk,
    generate_css_eq env oracle hk, generate_tests_eq env oracle hk,
    ho1, ho2, ho3, ho4,
    generate_config_files, goConfigs, configFiles,
    call_llm_api_config_key env oracle hk, hc1, hc2, hc3]
  rfl

/-! ## Concrete runs used by counterexamples and witnesses -/

/-- An environment with all three variables set. -/
def envOverride : Env := ⟨some "env-model", some "env-endpoint", some "env-key"⟩

/-- CLI arguments explicitly overriding all three configuration values. -/
def argsOverride : Args := ⟨some "arg-model", some "arg-key", some "arg-endpoint"⟩

/-- A filesystem on which every prompt file holds `"p"`. -/
def constPromptFs : String → Option String := fun _ => some "p"

/-- A filesystem with no files. -/
def emptyFs : String → Option String := fun _ => none

/-- A completion service answering `"x"` to everything. -/
def constOkOracle : Oracle := fun _ => .ok "x"

/-- A completion service failing every call with a transport error. -/
def failingOracle : Oracle := fun _ => .error "boom"

/-- A completion service that fails exactly the `babel.config.js` request
and answers `"x"` to everything else. -/
def failBabelOracle : Oracle := fun req =>
  if req.user_message = babelPrompt then .error "babel down" else .ok "x"

/-! ## Claims about the pipeline -/

/-- C1 counterexample: when generating `babel.config.js` fails, the two
remaining auxiliary files are NOT generated (the write list holds only the
four primary artifacts) and the exit path changes to exit code 1 — the
failure is not isolated, not collected, and not reported as a
partial-failure condition. -/
theorem aux_config_failure_counterexample :
    (pyMain envOverride argsOverride constPromptFs failBabelOracle).exitCode = 1 ∧
      (pyMain envOverride argsOverride constPromptFs failBabelOracle).files.map
          Prod.fst =
        ["generated/index.html", "generated/app.js", "generated/style.css",
         "generated/tests/calculator.test.js"] := by
  decide

/-- C1 (amended): auxiliary configuration files are generated sequentially
after the four primary stages; the first auxiliary failure leaves the four
primary artifacts (and any auxiliary files already written) persisted, but
the remaining auxiliary files are never generated, and the exception is
fatal: the run exits 1 with the generic error message printed to standard
output instead of the success summary. -/
theorem aux_config_failure_behavior :
    (∀ (env : Env) (args : Args) (fs : String → Option String) (oracle : Oracle)
      (k p1 p2 p3 p4 r1 r2 r3 r4 e : String),
      truthyOpt env.llm_api_key = some k →
      fs "prompts/calculator-ui.prompt" = some p1 →
      fs "prompts/business-logic.prompt" = some p2 →
      fs "prompts/styling.prompt" = some p3 →
      fs "prompts/tests.prompt" = some p4 →
      oracle (htmlRequest env k (pyStrip p1)) = .ok r1 →
      oracle (jsRequest env k (pyStrip p2) (extract_code r1)) = .ok r2 →
      oracle (cssRequest env k (pyStrip p3)
        (extract_code r1) (extract_code r2)) = .ok r3 →
      oracle (testsRequest env k (pyStrip p4)
        (extract_code r1) (extract_code r2) (extract_code r3)) = .ok r4 →
      oracle (configRequest env k babelPrompt) = .error e →
      pyMain env args fs oracle =
        ⟨1, [("generated/index.html", extract_code r1),
             ("generated/app.js", extract_code r2),
             ("generated/style.css", extract_code r3),
             ("generated/tests/calculator.test.js", extract_code r4)],
          [htmlRequest env k (pyStrip p1),
           jsRequest env k (pyStrip p2) (extract_code r1),
           cssRequest env k (pyStrip p3) (extract_code r1) (extract_code r2),
           testsRequest env k (pyStrip p4)
             (extract_code r1) (extract_code r2) (extract_code r3),
           configRequest env k babelPrompt],
          some (.standardOut, mainErrMsg e)⟩) ∧
    (∀ (env : Env) (args : Args) (fs : String → Option String) (oracle : Oracle)
      (k p1 p2 p3 p4 r1 r2 r3 r4 c1 e : String),
      truthyOpt env.llm_api_key = some k →
      fs "prompts/calculator-ui.prompt" = some p1 →
      fs "prompts/business-logic.prompt" = some p2 →
      fs "prompts/styling.prompt" = some p3 →
      fs "prompts/tests.prompt" = some p4 →
      oracle (htmlRequest env k (pyStrip p1)) = .ok r1 →
      oracle (jsRequest env k (pyStrip p2) (extract_code r1)) = .ok r2 →
      oracle (cssRequest env k (pyStrip p3)
        (extract_code r1) (extract_code r2)) = .ok r3 →
      oracle (testsRequest env k (pyStrip p4)
        (extract_code r1) (extract_code r2) (extract_code r3)) = .ok r4 →
      oracle (configRequest env k babelPrompt) = .ok c1 →
      oracle (configRequest env k jestPrompt) = .error e →
      pyMain env args fs oracle =
        ⟨1, [("generated/index.html", extract_code r1),
             ("generated/app.js", extract_code r2),
             ("generated/style.css", extract_code r3),
             ("generated/tests/calculator.test.js", extract_code r4),
             ("babel.config.js", c1)],
          [htmlRequest env k (pyStrip p1),
           jsRequest env k (pyStrip p2) (extract_code r1),
           cssRequest env k (pyStrip p3) (extract_code r1) (extract_code r2),
           testsRequest env k (pyStrip p4)
             (extract_code r1) (extract_code r2) (extract_code r3),
           configRequest env k babelPrompt, configRequest env k jestPrompt],
          some (.standardOut, mainErrMsg e)⟩) ∧
    (∀ (env : Env) (args : Args) (fs : String → Option String) (oracle : Oracle)
      (k p1 p2 p3 p4 r1 r2 r3 r4 c1 c2 e : String),
      truthyOpt env.llm_api_key = some k →
      fs "prompts/calculator-ui.prompt" = some p1 →
      fs "prompts/business-logic.prompt" = some p2 →
      fs "prompts/styling.prompt" = some p3 →
      fs "prompts/tests.prompt" = some p4 →
      oracle (htmlRequest env k (pyStrip p1)) = .ok r1 →
      oracle (jsRequest env k (pyStrip p2) (extract_code r1)) = .ok r2 →
      oracle (cssRequest env k (pyStrip p3)
        (extract_code r1) (extract_code r2)) = .ok r3 →
      oracle (testsRequest env k (pyStrip p4)
        (extract_code r1) (extract_code r2) (extract_code r3)) = .ok r4 →
      oracle (configRequest env k babelPrompt) = .ok c1 →
      oracle (configRequest env k jestPrompt) = .ok c2 →
      oracle (configRequest env k packagePrompt) = .error e →
      pyMain env args fs oracle =
        ⟨1, [("generated/index.html", extract_code r1),
             ("generated/app.js", extract_code r2),
             ("generated/style.css", extract_code r3),
             ("generated/tests/calculator.test.js", extract_code r4),
             ("babel.config.js", c1), ("jest.config.js", c2)],
          [htmlRequest env k (pyStrip p1),
           jsRequest env k (pyStrip p2) (extract_code r1),
           cssRequest env k (pyStrip p3) (extract_code r1) (extract_code r2),
           testsRequest env k (pyStrip p4)
             (extract_code r1) (extract_code r2) (extract_code r3),
           configRequest env k babelPrompt, configRequest env k jestPrompt,
           configRequest env k packagePrompt],
          some (.standardOut, mainErrMsg e)⟩) :=
  ⟨fun env args fs oracle _ p1 p2 p3 p4 r1 r2 r3 r4 e
      hk h1 h2 h3 h4 ho1 ho2 ho3 ho4 hc1 =>
    pyMain_babel_fail env args fs oracle p1 p2 p3 p4 r1 r2 r3 r4 e
      hk h1 h2 h3 h4 ho1 ho2 ho3 ho4 hc1,
   fun env args fs oracle _ p1 p2 p3 p4 r1 r2 r3 r4 c1 e
      hk h1 h2 h3 h4 ho1 ho2 ho3 ho4 hc1 hc2 =>
    pyMain_jest_fail env args fs oracle p1 p2 p3 p4 r1 r2 r3 r4 c1 e
      hk h1 h2 h3 h4 ho1 ho2 ho3 ho4 hc1 hc2,
   fun env args fs oracle _ p1 p2 p3 p4 r1 r2 r3 r4 c1 c2 e
      hk h1 h2 h3 h4 ho1 ho2 ho3 ho4 hc1 hc2 hc3 =>
    pyMain_package_fail env args fs oracle p1 p2 p3 p4 r1 r2 r3 r4 c1 c2 e
      hk h1 h2 h3 h4 ho1 ho2 ho3 ho4 hc1 hc2 hc3⟩

/-- C1 witness: a concrete run in which the babel request fails. -/
theorem aux_config_failure_behavior_witness :
    pyMain envOverride argsOverride constPromptFs failBabelOracle =
      ⟨1, [("generated/index.html", extract_code "x"),
           ("generated/app.js", extract_code "x"),
           ("generated/style.css", extract_code "x"),
           ("generated/tests/calculator.test.js", extract_code "x")],
        [htmlRequest envOverride "env-key" (pyStrip "p"),
         jsRequest envOverride "env-key" (pyStrip "p") (extract_code "x"),
         cssRequest envOverride "env-key" (pyStrip "p")
           (extract_code "x") (extract_code "x"),
         testsRequest envOverride "env-key" (pyStrip "p")
           (extract_code "x") (extract_code "x") (extract_code "x"),
         configRequest envOverride "env-key" babelPrompt],
        some (.standardOut, mainErrMsg "babel down")⟩ :=
  aux_config_failure_behavior.1 envOverride argsOverride constPromptFs
    failBabelOracle "env-key" "p" "p" "p" "p" "x" "x" "x" "x" "babel down"
    (by decide) rfl rfl rfl rfl rfl rfl rfl rfl rfl

/-- C2: in a fully successful run the stages execute in the order HTML,
Script, Style, Tests, then the three auxiliary files.  The request of each
stage embeds exactly the artifacts of the earlier stages — each the
`extract_code` of that stage's raw response — in creation order inside the
fixed templates; in particular the Tests request embeds the HTML, Script
and Style artifacts in that order, unchanged; and each artifact is
persisted exactly as extracted. -/
theorem pipeline_context_chaining (env : Env) (args : Args)
    (fs : String → Option String) (oracle : Oracle)
    (k p1 p2 p3 p4 r1 r2 r3 r4 c1 c2 c3 : String)
    (hk : truthyOpt env.llm_api_key = some k)
    (h1 : fs "prompts/calculator-ui.prompt" = some p1)
    (h2 : fs "prompts/business-logic.prompt" = some p2)
    (h3 : fs "prompts/styling.prompt" = some p3)
    (h4 : fs "prompts/tests.prompt" = some p4)
    (ho1 : oracle (htmlRequest env k (pyStrip p1)) = .ok r1)
    (ho2 : oracle (jsRequest env k (pyStrip p2) (extract_code r1)) = .ok r2)
    (ho3 : oracle (cssRequest env k (pyStrip p3)
      (extract_code r1) (extract_code r2)) = .ok r3)
    (ho4 : oracle (testsRequest env k (pyStrip p4)
      (extract_code r1) (extract_code r2) (extract_code r3)) = .ok r4)
    (hc1 : oracle (configRequest env k babelPrompt) = .ok c1)
    (hc2 : oracle (configRequest env k jestPrompt) = .ok c2)
    (hc3 : oracle (configRequest env k packagePrompt) = .ok c3) :
    pyMain env args fs oracle =
      ⟨0,
       [("generated/index.html", extract_code r1),
        ("generated/app.js", extract_code r2),
        ("generated/style.css", extract_code r3),
        ("generated/tests/calculator.test.js", extract_code r4),
        ("babel.config.js", c1), ("jest.config.js", c2), ("package.json", c3)],
       [htmlRequest env k (pyStrip p1),
        jsRequest env k (pyStrip p2) (extract_code r1),
        cssRequest env k (pyStrip p3) (extract_code r1) (extract_code r2),
        testsRequest env k (pyStrip p4)
          (extract_code r1) (extract_code r2) (extract_code r3),
        configRequest env k babelPrompt, configRequest env k jestPrompt,
        configRequest env k packagePrompt],
       none⟩ ∧
    (testsRequest env k (pyStrip p4)
        (extract_code r1) (extract_code r2) (extract_code r3)).user_message =
      (testsCtxA ++ extract_code r1 ++ testsCtxB ++ extract_code r2
        ++ testsCtxC ++ extract_code r3 ++ testsCtxD) ++ "\n" ++ pyStrip p4 :=
  ⟨pyMain_success env args fs oracle p1 p2 p3 p4 r1 r2 r3 r4 c1 c2 c3
    hk h1 h2 h3 h4 ho1 ho2 ho3 ho4 hc1 hc2 hc3, rfl⟩

/-- C2 witness: a concrete fully successful run. -/
theorem pipeline_context_chaining_witness :
    pyMain envOverride argsOverride constPromptFs constOkOracle =
      ⟨0,
       [("generated/index.html", extract_code "x"),
        ("generated/app.js", extract_code "x"),
        ("generated/style.css", extract_code "x"),
        ("generated/tests/calculator.test.js", extract_code "x"),
        ("babel.config.js", "x"), ("jest.config.js", "x"), ("package.json", "x")],
       [htmlRequest envOverride "env-key" (pyStrip "p"),
        jsRequest envOverride "env-key" (pyStrip "p") (extract_code "x"),
        cssRequest envOverride "env-key" (pyStrip "p")
          (extract_code "x") (extract_code "x"),
        testsRequest envOverride "env-key" (pyStrip "p")
          (extract_code "x") (extract_code "x") (extract_code "x"),
        configRequest envOverride "env-key" babelPrompt,
        configRequest envOverride "env-key" jestPrompt,
        configRequest envOverride "env-key" packagePrompt],
       none⟩ ∧
    (testsRequest envOverride "env-key" (pyStrip "p")
        (extract_code "x") (extract_code "x") (extract_code "x")).user_message =
      (testsCtxA ++ extract_code "x" ++ testsCtxB ++ extract_code "x"
        ++ testsCtxC ++ extract_code "x" ++ testsCtxD) ++ "\n" ++ pyStrip "p" :=
  pipeline_context_chaining envOverride argsOverride constPromptFs constOkOracle
    "env-key" "p" "p" "p" "p" "x" "x" "x" "x" "x" "x" "x"
    (by decide) rfl rfl rfl rfl rfl rfl rfl rfl rfl rfl rfl

/-- C3 counterexample: a run whose HTML stage fails with a simulated
transport error does abort with exit code 1 and nothing persisted, but the
error report is printed to standard output, not standard error, and does
not name the stage "HTML". -/
theorem primary_stage_failure_stderr_counterexample :
    (pyMain envOverride argsOverride constPromptFs failingOracle).exitCode = 1 ∧
      (pyMain envOverride argsOverride constPromptFs failingOracle).files = [] ∧
      (pyMain envOverride argsOverride constPromptFs failingOracle).requests.length
        = 1 ∧
      (pyMain envOverride argsOverride constPromptFs failingOracle).errorReport
        = some (Channel.standardOut, mainErrMsg "boom") ∧
      containsSub (mainErrMsg "boom") "HTML" = false := by
  decide

/-- C3 (amended): a failure at primary stage k aborts the pipeline
immediately — later stages never execute (no further request is posted), no
artifact from stage k or later is persisted, earlier artifacts remain, the
process exits with code 1, and the underlying error message is printed to
standard output (the stage name is not written to standard error). -/
theorem primary_stage_failure_aborts :
    (∀ (env : Env) (args : Args) (fs : String → Option String) (oracle : Oracle)
      (k p1 e : String),
      truthyOpt env.llm_api_key = some k →
      fs "prompts/calculator-ui.prompt" = some p1 →
      oracle (htmlRequest env k (pyStrip p1)) = .error e →
      pyMain env args fs oracle =
        ⟨1, [], [htmlRequest env k (pyStrip p1)],
          some (.standardOut, mainErrMsg e)⟩) ∧
    (∀ (env : Env) (args : Args) (fs : String → Option String) (oracle : Oracle)
      (k p1 p2 r1 e : String),
      truthyOpt env.llm_api_key = some k →
      fs "prompts/calculator-ui.prompt" = some p1 →
      fs "prompts/business-logic.prompt" = some p2 →
      oracle (htmlRequest env k (pyStrip p1)) = .ok r1 →
      oracle (jsRequest env k (pyStrip p2) (extract_code r1)) = .error e →
      pyMain env args fs oracle =
        ⟨1, [("generated/index.html", extract_code r1)],
          [htmlRequest env k (pyStrip p1),
           jsRequest env k (pyStrip p2) (extract_code r1)],
          some (.standardOut, mainErrMsg e)⟩) ∧
    (∀ (env : Env) (args : Args) (fs : String → Option String) (oracle : Oracle)
      (k p1 p2 p3 r1 r2 e : String),
      truthyOpt env.llm_api_key = some k →
      fs "prompts/calculator-ui.prompt" = some p1 →
      fs "prompts/business-logic.prompt" = some p2 →
      fs "prompts/styling.prompt" = some p3 →
      oracle (htmlRequest env k (pyStrip p1)) = .ok r1 →
      oracle (jsRequest env k (pyStrip p2) (extract_code r1)) = .ok r2 →
      oracle (cssRequest env k (pyStrip p3)
        (extract_code r1) (extract_code r2)) = .error e →
      pyMain env args fs oracle =
        ⟨1, [("generated/index.html", extract_code r1),
             ("generated/app.js", extract_code r2)],
          [htmlRequest env k (pyStrip p1),
           jsRequest env k (pyStrip p2) (extract_code r1),
           cssRequest env k (pyStrip p3) (extract_code r1) (extract_code r2)],
          some (.standardOut, mainErrMsg e)⟩) ∧
    (∀ (env : Env) (args : Args) (fs : String → Option String) (oracle : Oracle)
      (k p1 p2 p3 p4 r1 r2 r3 e : String),
      truthyOpt env.llm_api_key = some k →
      fs "prompts/calculator-ui.prompt" = some p1 →
      fs "prompts/business-logic.prompt" = some p2 →
      fs "prompts/styling.prompt" = some p3 →
      fs "prompts/tests.prompt" = some p4 →
      oracle (htmlRequest env k (pyStrip p1)) = .ok r1 →
      oracle (jsRequest env k (pyStrip p2) (extract_code r1)) = .ok r2 →
      oracle (cssRequest env k (pyStrip p3)
        (extract_code r1) (extract_code r2)) = .ok r3 →
      oracle (testsRequest env k (pyStrip p4)
        (extract_code r1) (extract_code r2) (extract_code r3)) = .error e →
      pyMain env args fs oracle =
        ⟨1, [("generated/index.html", extract_code r1),
             ("generated/app.js", extract_code r2),
             ("generated/style.css", extract_code r3)],
          [htmlRequest env k (pyStrip p1),
           jsRequest env k (pyStrip p2) (extract_code r1),
           cssRequest env k (pyStrip p3) (extract_code r1) (extract_code r2),
           testsRequest env k (pyStrip p4)
             (extract_code r1) (extract_code r2) (extract_code r3)],
          some (.standardOut, mainErrMsg e)⟩) :=
  ⟨fun env args fs oracle _ p1 e hk h1 ho1 =>
    pyMain_html_fail env args fs oracle p1 e hk h1 ho1,
   fun env args fs oracle _ p1 p2 r1 e hk h1 h2 ho1 ho2 =>
    pyMain_js_fail env args fs oracle p1 p2 r1 e hk h1 h2 ho1 ho2,
   fun env args fs oracle _ p1 p2 p3 r1 r2 e hk h1 h2 h3 ho1 ho2 ho3 =>
    pyMain_css_fail env args fs oracle p1 p2 p3 r1 r2 e hk h1 h2 h3 ho1 ho2 ho3,
   fun env args fs oracle _ p1 p2 p3 p4 r1 r2 r3 e hk h1 h2 h3 h4 ho1 ho2 ho3 ho4 =>
    pyMain_tests_fail env args fs oracle p1 p2 p3 p4 r1 r2 r3 e
      hk h1 h2 h3 h4 ho1 ho2 ho3 ho4⟩

/-- C3 witness: a concrete run failing at the HTML stage. -/
theorem primary_stage_failure_aborts_witness :
    pyMain envOverride argsOverride constPromptFs failingOracle =
      ⟨1, [], [htmlRequest envOverride "env-key" (pyStrip "p")],
        some (.standardOut, mainErrMsg "boom")⟩ :=
  primary_stage_failure_aborts.1 envOverride argsOverride constPromptFs
    failingOracle "env-key" "p" "boom" (by decide) rfl rfl

/-- C4: the parsed CLI arguments are dead: `main` never threads them into
any call, so a run with explicit `--model`, `--api-key` and `--endpoint`
overrides behaves identically to a run without them, and every completion
request carries the environment-derived defaults instead of the argument
values.  This contradicts the argparse help text, which documents the flags
as selecting the model, key and endpoint. -/
theorem cli_args_ignored :
    (∀ (env : Env) (args : Args) (fs : String → Option String) (oracle : Oracle),
      pyMain env args fs oracle = pyMain env ⟨none, none, none⟩ fs oracle) ∧
    (pyMain envOverride argsOverride constPromptFs constOkOracle).requests.map
        Request.model = List.replicate 7 "env-model" ∧
    (pyMain envOverride argsOverride constPromptFs constOkOracle).requests.map
        Request.endpoint = List.replicate 7 "env-endpoint" ∧
    (pyMain envOverride argsOverride constPromptFs constOkOracle).requests.map
        Request.api_key = List.replicate 7 "env-key" ∧
    argsOverride.model = some "arg-model" ∧
    argsOverride.api_key = some "arg-key" ∧
    argsOverride.endpoint = some "arg-endpoint" :=
  ⟨fun _ _ _ _ => rfl, by decide, by decide, by decide, rfl, rfl, rfl⟩

/-- C8 counterexample: the HTML stage's request carries the generic default
system message — which is not stage-specific and contains no
only-the-raw-artifact instruction — rather than the stage instruction,
which is prepended to the user prompt instead. -/
theorem html_system_message_counterexample :
    (pyMain envOverride argsOverride constPromptFs constOkOracle).requests.head?.map
        Request.system_message = some defaultSystemMessage ∧
      defaultSystemMessage ≠ htmlSystemPrompt ∧
      containsSub defaultSystemMessage "markdown" = false ∧
      containsSub defaultSystemMessage "ONLY" = false := by
  decide

/-- C8 (amended): the Script, Style and Tests stages send their
stage-specific "Respond with ONLY the complete ... file, no explanations or
markdown" system messages, and the auxiliary config calls their own fixed
system message; the HTML stage instead sends the generic default system
message and carries its stage instruction at the head of the user prompt. -/
theorem stage_system_messages (env : Env) (args : Args)
    (fs : String → Option String) (oracle : Oracle)
    (k p1 p2 p3 p4 r1 r2 r3 r4 c1 c2 c3 : String)
    (hk : truthyOpt env.llm_api_key = some k)
    (h1 : fs "prompts/calculator-ui.prompt" = some p1)
    (h2 : fs "prompts/business-logic.prompt" = some p2)
    (h3 : fs "prompts/styling.prompt" = some p3)
    (h4 : fs "prompts/tests.prompt" = some p4)
    (ho1 : oracle (htmlRequest env k (pyStrip p1)) = .ok r1)
    (ho2 : oracle (jsRequest env k (pyStrip p2) (extract_code r1)) = .ok r2)
    (ho3 : oracle (cssRequest env k (pyStrip p3)
      (extract_code r1) (extract_code r2)) = .ok r3)
    (ho4 : oracle (testsRequest env k (pyStrip p4)
      (extract_code r1) (extract_code r2) (extract_code r3)) = .ok r4)
    (hc1 : oracle (configRequest env k babelPrompt) = .ok c1)
    (hc2 : oracle (configRequest env k jestPrompt) = .ok c2)
    (hc3 : oracle (configRequest env k packagePrompt) = .ok c3) :
    (pyMain env args fs oracle).requests.map Request.system_message =
      [defaultSystemMessage, jsSystemPrompt, cssSystemPrompt, testsSystemPrompt,
       configSystemMessage, configSystemMessage, configSystemMessage] ∧
    ((pyMain env args fs oracle).requests.map Request.user_message).head? =
      some (htmlSystemPrompt ++ "\n\n" ++ pyStrip p1) := by
  rw [pyMain_success env args fs oracle p1 p2 p3 p4 r1 r2 r3 r4 c1 c2 c3
    hk h1 h2 h3 h4 ho1 ho2 ho3 ho4 hc1 hc2 hc3]
  exact ⟨rfl, rfl⟩

/-- C8 witness: a concrete successful run. -/
theorem stage_system_messages_witness :
    (pyMain envOverride argsOverride constPromptFs constOkOracle).requests.map
        Request.system_message =
      [defaultSystemMessage, jsSystemPrompt, cssSystemPrompt, testsSystemPrompt,
       configSystemMessage, configSystemMessage, configSystemMessage] ∧
    ((pyMain envOverride argsOverride constPromptFs constOkOracle).requests.map
        Request.user_message).head? =
      some (htmlSystemPrompt ++ "\n\n" ++ pyStrip "p") :=
  stage_system_messages envOverride argsOverride constPromptFs constOkOracle
    "env-key" "p" "p" "p" "p" "x" "x" "x" "x" "x" "x" "x"
    (by decide) rfl rfl rfl rfl rfl rfl rfl rfl rfl rfl rfl

/-- C9: `read_prompt_file` returns the file's trimmed content when the file
exists and a NotFound error when it is absent; a missing prompt file is
fatal for the whole run with no fallback — nothing further is posted or
written, the run exits 1 — both for the first prompt and for a later one
after earlier stages succeeded. -/
theorem prompt_store_contract :
    (∀ (fs : String → Option String) (path content : String),
      fs path = some content →
      read_prompt_file fs path = .ok (pyStrip content)) ∧
    (∀ (fs : String → Option String) (path : String),
      fs path = none →
      read_prompt_file fs path = .error (.notFound path)) ∧
    (∀ (env : Env) (args : Args) (fs : String → Option String) (oracle : Oracle),
      fs "prompts/calculator-ui.prompt" = none →
      pyMain env args fs oracle =
        ⟨1, [], [], some (.standardOut, mainErrMsg
          (promptErrMsg (.notFound "prompts/calculator-ui.prompt")))⟩) ∧
    (∀ (env : Env) (args : Args) (fs : String → Option String) (oracle : Oracle)
      (k p1 r1 : String),
      truthyOpt env.llm_api_key = some k →
      fs "prompts/calculator-ui.prompt" = some p1 →
      oracle (htmlRequest env k (pyStrip p1)) = .ok r1 →
      fs "prompts/business-logic.prompt" = none →
      pyMain env args fs oracle =
        ⟨1, [("generated/index.html", extract_code r1)],
          [htmlRequest env k (pyStrip p1)],
          some (.standardOut, mainErrMsg
            (promptErrMsg (.notFound "prompts/business-logic.prompt")))⟩) :=
  ⟨fun fs path content h => by unfold read_prompt_file; rw [h],
   fun fs path h => by unfold read_prompt_file; rw [h],
   fun env args fs oracle h => pyMain_ui_missing env args fs oracle h,
   fun env args fs oracle _ p1 r1 hk h1 ho1 h2 =>
    pyMain_logic_missing env args fs oracle p1 r1 hk h1 ho1 h2⟩

/-- C9 witness: a run on an empty filesystem aborts with the NotFound
error for the UI prompt. -/
theorem prompt_store_contract_witness :
    pyMain envOverride argsOverride emptyFs constOkOracle =
      ⟨1, [], [], some (.standardOut, mainErrMsg
        (promptErrMsg (.notFound "prompts/calculator-ui.prompt")))⟩ :=
  prompt_store_contract.2.2.1 envOverride argsOverride emptyFs constOkOracle rfl

end GenCode
